import Mathlib

/-!
Shallow embedding of the Tempotown plugin (src/tempotown/README.md, embedded
Go source of package tempotown) for checking its natural-language
specification. Pure functions below are direct translations of the Go code;
stateful methods are translated as explicit state transformers on a record of
the TempotownHook fields that the claims mention. Machine int64 values are
modelled as Int (all arithmetic here is small additions, far from overflow).
-/

namespace Tempotown

/-- Config, from the Go `Config` struct (endpoint, role, capabilities,
poll_interval_seconds). -/
structure Config where
  endpoint : String
  role : String
  capabilities : List String
  pollIntervalSeconds : Int
deriving DecidableEq

/-- FeedbackPayload, from the Go struct of the same name. The `metadata`
field (an untyped `map[string]any` bag) is not constrained or read by any
code path the claims mention and is omitted from the state. -/
structure FeedbackPayload where
  message : String
  source : String
  taskID : String
deriving DecidableEq

/-- A decoded JSON-RPC `id` value as Go's encoding/json sees an
`interface\x7b\x7d` field: a JSON number decodes to float64 (here: the Int it
truncates to via int64(id)), a JSON string to string, and so on. -/
inductive JsonID
  | num (n : Int)
  | str (s : String)
  | boolv (b : Bool)
  | objv
  | arrv
deriving DecidableEq

/-- Whether a decoded id is a JSON number (Go: the `resp.ID.(float64)` type
assertion succeeds). -/
def JsonID.isNum : JsonID → Bool
  | .num _ => true
  | _ => false

/-- Error, from the Go JSON-RPC `Error` struct (the `data` payload is unused
by the client). -/
structure RPCError where
  code : Int
  message : String
deriving DecidableEq

/-- Response, from the Go `Response` struct: the decoded `id` (absent when
the frame carried none) and the optional `error` object. The raw `result`
payload is handled at its decode sites. -/
structure Response where
  id : Option JsonID
  error : Option RPCError
deriving DecidableEq

/-- Content, from the Go `Content` struct. -/
structure Content where
  type : String
  text : String
deriving DecidableEq

/-- ToolCallResult, from the Go `ToolCallResult` struct. -/
structure ToolCallResult where
  content : List Content
  isError : Bool
deriving DecidableEq

/-- The mutable state of the Go `TempotownHook` struct, restricted to the
fields the claims are about. `hasConn` models `conn != nil`; `pending`
models the key set of the `pending` map in insertion order; `feedbackCh`
models the buffered contents of the feedback channel and `feedbackClosed`
whether `close(feedbackCh)` has ever been executed (the Go source contains
no such call). -/
structure TempotownHook where
  cfg : Config
  hasConn : Bool
  requestID : Int
  pending : List Int
  agentID : String
  currentTask : String
  phase : String
  connected : Bool
  feedbackCh : List FeedbackPayload
  feedbackClosed : Bool
deriving DecidableEq

/-- DefaultRole constant from the Go source. -/
def DefaultRole : String := "coder"

/-- DefaultPollInterval constant from the Go source, in seconds. -/
def DefaultPollIntervalSeconds : Int := 5

/-- Capacity of the feedback channel, from
`make(chan FeedbackPayload, 10)` in NewTempotownHook. -/
def feedbackChCapacity : Nat := 10

/-- The hard RPC deadline from `time.After(30 * time.Second)` in `call`. -/
def rpcTimeoutSeconds : Nat := 30

/-- NewTempotownHook, translated from the Go constructor: an empty endpoint
returns the nil hook (disabled); otherwise defaults are applied to role and
poll interval and the initial state is built (`phase = "init"`, empty
pending map, feedback channel of capacity 10, counter at zero). -/
def NewTempotownHook (cfg : Config) : Option TempotownHook :=
  if cfg.endpoint = "" then none
  else
    let role := if cfg.role = "" then DefaultRole else cfg.role
    let poll :=
      if cfg.pollIntervalSeconds = 0 then DefaultPollIntervalSeconds
      else cfg.pollIntervalSeconds
    some
      { cfg := { cfg with role := role, pollIntervalSeconds := poll }
        hasConn := false
        requestID := 0
        pending := []
        agentID := ""
        currentTask := ""
        phase := "init"
        connected := false
        feedbackCh := []
        feedbackClosed := false }

/-- Stop, translated from the Go `Stop` method: close and drop the
connection if there is one, clear the connected flag, return nil. Nothing
else in the method body touches `pending` or the feedback channel. -/
def TempotownHook.Stop (h : TempotownHook) : TempotownHook :=
  { h with hasConn := false, connected := false }

/-- The state effect of `connect` (lines installing `conn`, `encoder`,
`decoder`): a transport is attached; `requestID` and `pending` are not
touched by `connect`. -/
def connectTransport (h : TempotownHook) : TempotownHook :=
  { h with hasConn := true }

/-- The supervisor's reaction in `connectionLoop` when the reader task
exits: `h.connected.Store(false)`. The exiting `readLoop` itself performs
no cleanup of the pending map. -/
def onReaderExit (h : TempotownHook) : TempotownHook :=
  { h with connected := false }

/-- The response-routing body of `readLoop` for one decoded frame: if the
frame has an id and the id decoded as a JSON number (float64 assertion) and
that number is a pending key, deliver to the waiting channel and delete the
key; in every other case the frame is dropped with no state change and no
error. The second component is the id that was delivered to, if any. -/
def routeResponse (pending : List Int) (resp : Response) :
    List Int × Option Int :=
  match resp.id with
  | some (JsonID.num n) =>
      if n ∈ pending then (pending.erase n, some n) else (pending, none)
  | _ => (pending, none)

/-- `readLoop` as a run over the frames decoded before the loop exits (on
EOF, socket closure or a JSON decode error): each frame is routed, then the
function returns, leaving the final pending key set. -/
def readLoopRun (pending : List Int) : List Response → List Int
  | [] => pending
  | resp :: rest => readLoopRun (routeResponse pending resp).1 rest

/-- The id-allocation and slot-installation half of `call`:
`id := h.requestID.Add(1)` (atomic add returning the new value) and
`h.pending[id] = ch`. -/
def callSubmit (h : TempotownHook) : TempotownHook × Int :=
  let id := h.requestID + 1
  ({ h with requestID := id, pending := h.pending ++ [id] }, id)

/-- Iterated `callSubmit`, collecting the allocated ids in order. -/
def callSubmitN : TempotownHook → Nat → TempotownHook × List Int
  | h, 0 => (h, [])
  | h, Nat.succ n =>
    ((callSubmitN (callSubmit h).1 n).1,
     (callSubmit h).2 :: (callSubmitN (callSubmit h).1 n).2)

/-- Which arm of the `select` in `call` fires: the delivery channel (with
the response's optional error object), `ctx.Done()`, or the 30-second
`time.After` deadline. -/
inductive WaitEvent
  | delivered (err : Option RPCError)
  | ctxDone
  | deadline
deriving DecidableEq

/-- Outcome of `call` as seen by the caller. -/
inductive CallOutcome
  | ok
  | rpcError (e : RPCError)
  | cancelled
  | timeout
deriving DecidableEq

/-- The wait half of `call`, from the `select` statement: on `ctx.Done()`
delete the slot and return `ctx.Err()`; on delivery return the response (as
an RPC error when it carries an error object; the reader already deleted
the slot on delivery); on the 30-second deadline delete the slot and return
the timeout error. -/
def callWait (pending : List Int) (id : Int) : WaitEvent → List Int × CallOutcome
  | .delivered none => (pending, .ok)
  | .delivered (some e) => (pending, .rpcError e)
  | .ctxDone => (pending.erase id, .cancelled)
  | .deadline => (pending.erase id, .timeout)

/-- The result-interpretation tail of `callTool` after the RPC response's
result unmarshalled to a `ToolCallResult`: an `isError` result fails with
the first content text (or a generic message); otherwise the first content
text (or the empty string) is returned. -/
def handleToolResult (result : ToolCallResult) : Except String String :=
  if result.isError then
    match result.content with
    | c :: _ => Except.error ("tool error: " ++ c.text)
    | [] => Except.error "tool error"
  else
    match result.content with
    | c :: _ => Except.ok c.text
    | [] => Except.ok ""

/-- `callTool` on the path where the transport delivers a response whose
result unmarshals to `result`: `call` allocates an id and installs a slot,
the reader deletes the slot when it delivers the response, and then the
`isError` branch of `callTool` interprets the result. No step on this path
writes the connected flag. -/
def callToolDelivered (h : TempotownHook) (result : ToolCallResult) :
    TempotownHook × Except String String :=
  let p := callSubmit h
  let h2 := { p.1 with pending := p.1.pending.erase p.2 }
  (h2, handleToolResult result)

/-- The message the spec assigns to a failed tool call: the text of the
first content block when there is one, else the generic message. Stated
from the spec's words, for comparison with `handleToolResult`. -/
def toolErrorMessage (result : ToolCallResult) : String :=
  match result.content with
  | c :: _ => "tool error: " ++ c.text
  | [] => "tool error"

/-- The text the spec says a successful tool call returns: the first
content block's text, or the empty string when there is none. Stated from
the spec's words, for comparison with `handleToolResult`. -/
def firstTextOrEmpty : List Content → String
  | c :: _ => c.text
  | [] => ""

/-- What the Go code in `registerAgent` observes of
`json.Unmarshal([]byte(resp), &result)`: either the unmarshal succeeded and
produced the `agent_id` field's string (the zero value "" when the field is
absent or empty), or it failed. -/
inductive RegisterParse
  | parsed (agentID : String)
  | malformed
deriving DecidableEq

/-- The state-update tail of `registerAgent` after the `register_agent`
tool call returned text: adopt the parsed agent id when the unmarshal
succeeded and the id is nonempty, then set `phase` to "idle" and return
nil (success) in every case. -/
def registerAgentFinish (h : TempotownHook) (p : RegisterParse) : TempotownHook :=
  let h1 :=
    match p with
    | .parsed aid => if aid ≠ "" then { h with agentID := aid } else h
    | .malformed => h
  { h1 with phase := "idle" }

/-- Message roles, from the plugin package's role constants. -/
inductive MessageRole
  | user
  | assistant
  | system
  | tool
deriving DecidableEq

/-- Message event discriminator, from the plugin package. -/
inductive EventType
  | MessageCreated
  | MessageUpdated
  | MessageDeleted
deriving DecidableEq

/-- A tool call attached to a message, from the plugin package (`input` is
unread by this hook and omitted). -/
structure ToolCall where
  id : String
  name : String
  finished : Bool
deriving DecidableEq

/-- The message payload fields `handleEvent` reads. -/
structure Message where
  role : MessageRole
  toolCalls : List ToolCall
deriving DecidableEq

/-- A message event as consumed by `handleEvent`. -/
structure MessageEvent where
  type : EventType
  message : Message
deriving DecidableEq

/-- The `details` map passed to `reportStatus` for a running tool:
`tool` and `tool_id`. -/
structure StatusDetails where
  tool : String
  toolID : String
deriving DecidableEq

/-- One `reportStatus` invocation: status text, progress, optional
details. -/
structure StatusReport where
  status : String
  progress : Int
  details : Option StatusDetails
deriving DecidableEq

/-- The first tool call with `Finished == false`, as found by the `for`
loop in `handleEvent` (which returns at the first unfinished call). -/
def firstUnfinished : List ToolCall → Option ToolCall
  | [] => none
  | tc :: rest => if tc.finished then firstUnfinished rest else some tc

/-- handleEvent, translated from the Go method: when the connected flag is
clear nothing is reported; a created user message reports
"processing user input" at 0; a created assistant message reports
"generating response" at 50; an updated assistant message reports
"running tool: " with the first unfinished tool call's name at 50 with
details, or "response complete" at 100 when every tool call is finished;
every other event reports nothing. The returned value is the single
`reportStatus` call the event produces, if any. -/
def handleEvent (connected : Bool) (event : MessageEvent) : Option StatusReport :=
  if !connected then none
  else
    match event.type with
    | .MessageCreated =>
      match event.message.role with
      | .user => some ⟨"processing user input", 0, none⟩
      | .assistant => some ⟨"generating response", 50, none⟩
      | _ => none
    | .MessageUpdated =>
      match event.message.role with
      | .assistant =>
        match firstUnfinished event.message.toolCalls with
        | some tc => some ⟨"running tool: " ++ tc.name, 50, some ⟨tc.name, tc.id⟩⟩
        | none => some ⟨"response complete", 100, none⟩
      | _ => none
    | .MessageDeleted => none

/-- The enqueue loop of `pollFeedback`: for each item in the order the
orchestrator returned, a non-blocking send on the feedback channel (the
`select` with a `default` arm); when the buffer is full the item is dropped
and a warning naming its `source` is logged. The state is the buffered
channel contents plus the log of warned sources. -/
def enqueueFeedback :
    List FeedbackPayload → List String → List FeedbackPayload →
    List FeedbackPayload × List String
  | ch, warns, [] => (ch, warns)
  | ch, warns, item :: rest =>
    if ch.length < feedbackChCapacity then
      enqueueFeedback (ch ++ [item]) warns rest
    else
      enqueueFeedback ch (warns ++ [item.source]) rest

/-- The invariant the pending map satisfies in every reachable state:
every pending key is a previously allocated id, hence positive and at most
the current counter. -/
def PendingInv (h : TempotownHook) : Prop :=
  ∀ i ∈ h.pending, 0 < i ∧ i ≤ h.requestID

/-- A concrete configuration with the documented default values. -/
def sampleConfig : Config :=
  { endpoint := "localhost:9090", role := "coder", capabilities := [],
    pollIntervalSeconds := 5 }

/-- The hook state `NewTempotownHook` builds for `sampleConfig`. -/
def initialHook : TempotownHook :=
  { cfg := sampleConfig, hasConn := false, requestID := 0, pending := [],
    agentID := "", currentTask := "", phase := "init", connected := false,
    feedbackCh := [], feedbackClosed := false }

/-- A connected hook with one outstanding RPC (id 1), as after a
successful connect and one in-flight call. -/
def hookPending1 : TempotownHook :=
  { initialHook with
    hasConn := true,
    connected := true,
    requestID := 1,
    pending := [1] }

/-- A hook in the Connected state with no in-flight RPC. -/
def connectedHook : TempotownHook :=
  { initialHook with hasConn := true, connected := true }

/-- Twelve feedback items, two more than the channel capacity. -/
def sampleItems : List FeedbackPayload :=
  (List.range 12).map (fun k => FeedbackPayload.mk "m" (toString k) "")

/-- Erasing, one by one, every element of a list from that same list leaves
the empty list. -/
theorem foldl_erase_self : ∀ l : List Int, l.foldl List.erase l = []
  | [] => rfl
  | a :: t => by
    have ih := foldl_erase_self t
    simpa [List.erase_cons_head] using ih

/-- Under the pending-map invariant the id `callSubmit` allocates is fresh:
it is not already a pending key. -/
theorem fresh_id_not_pending (h : TempotownHook) (hinv : PendingInv h) :
    h.requestID + 1 ∉ h.pending := by
  intro hmem
  have := hinv _ hmem
  omega

/-- Appending a fresh element and erasing it restores the original list. -/
theorem erase_append_fresh (l : List Int) (a : Int) (ha : a ∉ l) :
    (l ++ [a]).erase a = l := by
  rw [List.erase_append_right _ ha, List.erase_cons_head, List.append_nil]

/-- Claim C7: for any configuration whose endpoint is the empty string,
construction yields no core (the factory returns no hook); since every
network operation is a method on a constructed hook, no network activity
ever occurs. Stated as an equivalence: the constructor returns no hook
exactly when the endpoint is empty. -/
theorem C7_construction_gating (cfg : Config) :
    (cfg.endpoint = "" → NewTempotownHook cfg = none)
  ∧ (NewTempotownHook cfg = none → cfg.endpoint = "") := by
  constructor
  · intro he
    simp [NewTempotownHook, he]
  · intro hn
    by_contra hne
    simp [NewTempotownHook, hne] at hn

/-- Witness for C7 at the concrete configuration with empty endpoint. -/
theorem C7_witness :
    (Config.mk "" "coder" [] 5).endpoint = ""
  ∧ NewTempotownHook (Config.mk "" "coder" [] 5) = none :=
  ⟨rfl, (C7_construction_gating (Config.mk "" "coder" [] 5)).1 rfl⟩

/-- Claim C9: the submit path of `call` waits on whichever of delivery,
the 30-second deadline, or cancellation comes first; on the deadline it
removes its slot and fails with Timeout, on cancellation it removes its
slot and fails with Cancelled, on delivery it does not remove anything
itself; and a response arriving for an id whose slot was already removed
is discarded silently by the reader with no state change and no error. -/
theorem C9_call_wait (pending : List Int) (id : Int) :
    callWait pending id WaitEvent.deadline = (pending.erase id, CallOutcome.timeout)
  ∧ callWait pending id WaitEvent.ctxDone = (pending.erase id, CallOutcome.cancelled)
  ∧ (∀ e : Option RPCError, (callWait pending id (WaitEvent.delivered e)).1 = pending)
  ∧ (id ∉ pending →
      routeResponse pending (Response.mk (some (JsonID.num id)) none) = (pending, none))
  ∧ rpcTimeoutSeconds = 30 := by
  refine ⟨rfl, rfl, ?_, ?_, rfl⟩
  · intro e
    cases e <;> rfl
  · intro hni
    simp [routeResponse, hni]

/-- Witness for C9: a late response for id 7 when only ids 1 and 2 are
pending is discarded without touching the pending map. -/
theorem C9_witness :
    (7 : Int) ∉ ([1, 2] : List Int)
  ∧ routeResponse [1, 2] (Response.mk (some (JsonID.num 7)) none) = ([1, 2], none) :=
  ⟨by decide, (C9_call_wait [1, 2] 7).2.2.2.1 (by decide)⟩

/-- Claim C10: the reader delivers a response to a waiting caller only when
its id decodes as a JSON number; an inbound response whose id is present
but of any other JSON type is ignored, leaving the pending map unchanged
and delivering to no caller. -/
theorem C10_nonnumeric_id_ignored (pending : List Int) (j : JsonID)
    (er : Option RPCError) (hj : j.isNum = false) :
    routeResponse pending (Response.mk (some j) er) = (pending, none) := by
  cases j <;> simp_all [routeResponse, JsonID.isNum]

/-- Witness for C10: a string id spelling the pending request's number "5"
is not routed to the waiter for id 5. -/
theorem C10_witness :
    (JsonID.str "5").isNum = false
  ∧ routeResponse [5] (Response.mk (some (JsonID.str "5")) none) = ([5], none) :=
  ⟨rfl, C10_nonnumeric_id_ignored [5] (JsonID.str "5") none rfl⟩

/-- Counterexample to claim C1: with request id 1 still pending, the reader
exits (here: after decoding zero further frames) and the supervisor reacts;
the pending map still holds id 1, so the map is not empty at transport
tear-down and the waiter for id 1 has not been failed by the reader. -/
theorem C1_counterexample :
    readLoopRun hookPending1.pending [] = [1]
  ∧ (onReaderExit hookPending1).pending = [1]
  ∧ (onReaderExit hookPending1).pending ≠ [] := by
  refine ⟨rfl, rfl, by decide⟩

/-- Claim C1 as amended: when the reader task exits, the pending map is
left untouched and only the connected flag is cleared; each remaining
waiter removes its own slot when its 30-second deadline fires (failing with
Timeout, not TransportClosed), and once every waiter has done so the
pending map is empty. -/
theorem C1_amended (h : TempotownHook) :
    (onReaderExit h).pending = h.pending
  ∧ (onReaderExit h).connected = false
  ∧ (∀ i : Int, callWait h.pending i WaitEvent.deadline
        = (h.pending.erase i, CallOutcome.timeout))
  ∧ h.pending.foldl (fun p i => (callWait p i WaitEvent.deadline).1) h.pending = [] := by
  refine ⟨rfl, rfl, fun i => rfl, ?_⟩
  exact foldl_erase_self h.pending

/-- Counterexample to claim C2: `Stop` on a hook with a pending RPC leaves
the pending slot in place (no RPC is failed with Cancelled by `Stop`
itself) and never closes the feedback channel. -/
theorem C2_counterexample :
    (TempotownHook.Stop hookPending1).pending = [1]
  ∧ (TempotownHook.Stop hookPending1).pending ≠ []
  ∧ (TempotownHook.Stop hookPending1).feedbackClosed = false := by
  refine ⟨rfl, by decide, rfl⟩

/-- Claim C2 as amended: `Stop` closes the active transport if any and
clears the connected flag, is idempotent, and is safe to call without a
prior start; it does not itself fail pending RPCs (each pending caller
fails with Cancelled only when its own context is cancelled) and the
feedback channel is never closed. -/
theorem C2_amended (h : TempotownHook) :
    (TempotownHook.Stop h).hasConn = false
  ∧ (TempotownHook.Stop h).connected = false
  ∧ (TempotownHook.Stop h).pending = h.pending
  ∧ (TempotownHook.Stop h).feedbackClosed = h.feedbackClosed
  ∧ TempotownHook.Stop (TempotownHook.Stop h) = TempotownHook.Stop h
  ∧ (∀ pending : List Int, ∀ i : Int,
      (callWait pending i WaitEvent.ctxDone).2 = CallOutcome.cancelled) :=
  ⟨rfl, rfl, rfl, rfl, rfl, fun _ _ => rfl⟩

/-- Claim C8: after a successful register_agent tool call, a parsed
response carrying a nonempty agent_id is adopted as the agent identity; a
response that fails to parse leaves the agent id unchanged and registration
still succeeds; in every case the session phase becomes idle. -/
theorem C8_register_agent (h : TempotownHook) (aid : String) (haid : aid ≠ "") :
    registerAgentFinish h (RegisterParse.parsed aid)
      = { h with agentID := aid, phase := "idle" }
  ∧ registerAgentFinish h RegisterParse.malformed = { h with phase := "idle" }
  ∧ (registerAgentFinish h RegisterParse.malformed).agentID = h.agentID
  ∧ (∀ p : RegisterParse, (registerAgentFinish h p).phase = "idle") := by
  refine ⟨?_, rfl, rfl, ?_⟩
  · simp [registerAgentFinish, haid]
  · intro p
    cases p with
    | parsed aid2 =>
      by_cases h2 : aid2 = ""
      · simp [registerAgentFinish, h2]
      · simp [registerAgentFinish, h2]
    | malformed => rfl

/-- Witness for C8: registering from the fresh hook with response
agent_id "A-1" adopts that identity and enters the idle phase. -/
theorem C8_witness :
    ("A-1" : String) ≠ ""
  ∧ registerAgentFinish initialHook (RegisterParse.parsed "A-1")
      = { initialHook with agentID := "A-1", phase := "idle" } :=
  ⟨by decide, (C8_register_agent initialHook "A-1" (by decide)).1⟩

/-- A list in which every tool call is finished has no first unfinished
tool call. -/
theorem firstUnfinished_all_finished :
    ∀ l : List ToolCall, (∀ x ∈ l, x.finished = true) → firstUnfinished l = none := by
  intro l
  induction l with
  | nil => intro _; rfl
  | cons tc rest ih =>
    intro h
    have h1 : tc.finished = true := h tc (by simp)
    have h2 := ih (fun x hx => h x (by simp [hx]))
    simp [firstUnfinished, h1, h2]

/-- The first unfinished tool call of a list that splits into a finished
block, an unfinished call, and a remainder, is that unfinished call. -/
theorem firstUnfinished_split (tc : ToolCall) (post : List ToolCall)
    (htc : tc.finished = false) :
    ∀ pre : List ToolCall, (∀ x ∈ pre, x.finished = true) →
      firstUnfinished (pre ++ tc :: post) = some tc := by
  intro pre
  induction pre with
  | nil => intro _; simp [firstUnfinished, htc]
  | cons a t ih =>
    intro hpre
    have h1 : a.finished = true := hpre a (by simp)
    have h2 := ih (fun x hx => hpre x (by simp [hx]))
    simp [firstUnfinished, h1, h2]

/-- Claim C3: while the connected flag is set, the status projector emits
exactly the mapped report_status call for each message event: a created
user message reports "processing user input" at 0 with no details, a
created assistant message reports "generating response" at 50, an updated
assistant message with at least one unfinished tool call reports
"running tool: " with the name of the first unfinished call at 50 and
details naming that call's tool and id, an updated assistant message whose
tool calls are all finished (or absent) reports "response complete" at 100,
and every other event produces no call. -/
theorem C3_status_projection (ty : EventType) (role : MessageRole)
    (tcs : List ToolCall) :
    (ty = EventType.MessageCreated → role = MessageRole.user →
        handleEvent true ⟨ty, ⟨role, tcs⟩⟩
          = some ⟨"processing user input", 0, none⟩)
  ∧ (ty = EventType.MessageCreated → role = MessageRole.assistant →
        handleEvent true ⟨ty, ⟨role, tcs⟩⟩
          = some ⟨"generating response", 50, none⟩)
  ∧ (ty = EventType.MessageUpdated → role = MessageRole.assistant →
      ∀ pre tc post, tcs = pre ++ tc :: post →
        (∀ x ∈ pre, x.finished = true) → tc.finished = false →
        handleEvent true ⟨ty, ⟨role, tcs⟩⟩
          = some ⟨"running tool: " ++ tc.name, 50, some ⟨tc.name, tc.id⟩⟩)
  ∧ (ty = EventType.MessageUpdated → role = MessageRole.assistant →
        (∀ x ∈ tcs, x.finished = true) →
        handleEvent true ⟨ty, ⟨role, tcs⟩⟩
          = some ⟨"response complete", 100, none⟩)
  ∧ (ty = EventType.MessageDeleted → handleEvent true ⟨ty, ⟨role, tcs⟩⟩ = none)
  ∧ (ty = EventType.MessageCreated →
        (role = MessageRole.system ∨ role = MessageRole.tool) →
        handleEvent true ⟨ty, ⟨role, tcs⟩⟩ = none)
  ∧ (ty = EventType.MessageUpdated → role ≠ MessageRole.assistant →
        handleEvent true ⟨ty, ⟨role, tcs⟩⟩ = none) := by
  refine ⟨?_, ?_, ?_, ?_, ?_, ?_, ?_⟩
  · intro h1 h2; subst h1; subst h2; simp [handleEvent]
  · intro h1 h2; subst h1; subst h2; simp [handleEvent]
  · intro h1 h2 pre tc post heq hpre htc
    subst h1; subst h2; subst heq
    simp [handleEvent, firstUnfinished_split tc post htc pre hpre]
  · intro h1 h2 hall
    subst h1; subst h2
    simp [handleEvent, firstUnfinished_all_finished tcs hall]
  · intro h1; subst h1; simp [handleEvent]
  · intro h1 h2
    subst h1
    rcases h2 with h2 | h2 <;> (subst h2; simp [handleEvent])
  · intro h1 h2
    subst h1
    cases role with
    | assistant => exact absurd rfl h2
    | user => simp [handleEvent]
    | system => simp [handleEvent]
    | tool => simp [handleEvent]

/-- Witness for C3: an updated assistant message whose tool calls are a
finished "fmt" call followed by an unfinished "grep" call reports running
grep with its id in the details. -/
theorem C3_witness :
    handleEvent true
        ⟨EventType.MessageUpdated,
         ⟨MessageRole.assistant,
          [ToolCall.mk "t0" "fmt" true, ToolCall.mk "t1" "grep" false]⟩⟩
      = some ⟨"running tool: grep", 50, some ⟨"grep", "t1"⟩⟩ := by
  have h := (C3_status_projection EventType.MessageUpdated MessageRole.assistant
      [ToolCall.mk "t0" "fmt" true, ToolCall.mk "t1" "grep" false]).2.2.1 rfl rfl
      [ToolCall.mk "t0" "fmt" true] (ToolCall.mk "t1" "grep" false) [] rfl
      (by decide) rfl
  have e : "running tool: " ++ "grep" = "running tool: grep" := rfl
  rw [e] at h
  exact h

/-- Claim C4: a tools/call result carrying isError true fails that one call
with a tool error whose message is the text of the first content block when
there is one (else the generic message), and the failure does not tear the
connection down: the connected flag is unchanged, the pending map is
restored, and a subsequent call on the same transport returns its result
normally. -/
theorem C4_tool_error_isolation (h : TempotownHook) (hinv : PendingInv h)
    (hconn : h.connected = true) (bad : ToolCallResult) (hbad : bad.isError = true) :
    (callToolDelivered h bad).2 = Except.error (toolErrorMessage bad)
  ∧ (callToolDelivered h bad).1.connected = true
  ∧ (callToolDelivered h bad).1.pending = h.pending
  ∧ (∀ good : ToolCallResult, good.isError = false →
      (callToolDelivered (callToolDelivered h bad).1 good).2
        = Except.ok (firstTextOrEmpty good.content)) := by
  have hfresh := fresh_id_not_pending h hinv
  refine ⟨?_, ?_, ?_, ?_⟩
  · cases hc : bad.content with
    | nil => simp [callToolDelivered, handleToolResult, toolErrorMessage, hbad, hc]
    | cons c rest => simp [callToolDelivered, handleToolResult, toolErrorMessage, hbad, hc]
  · simpa [callToolDelivered, callSubmit] using hconn
  · show (h.pending ++ [h.requestID + 1]).erase (h.requestID + 1) = h.pending
    exact erase_append_fresh _ _ hfresh
  · intro good hgood
    cases hc : good.content with
    | nil => simp [callToolDelivered, handleToolResult, firstTextOrEmpty, hgood, hc]
    | cons c rest => simp [callToolDelivered, handleToolResult, firstTextOrEmpty, hgood, hc]

/-- Witness for C4: on a connected hook with no in-flight RPC, an isError
result with text "nope" fails with "tool error: nope" while the hook stays
connected. -/
theorem C4_witness :
    PendingInv connectedHook
  ∧ (ToolCallResult.mk [Content.mk "text" "nope"] true).isError = true
  ∧ (callToolDelivered connectedHook (ToolCallResult.mk [Content.mk "text" "nope"] true)).2
      = Except.error "tool error: nope"
  ∧ (callToolDelivered connectedHook
        (ToolCallResult.mk [Content.mk "text" "nope"] true)).1.connected = true := by
  have hpi : PendingInv connectedHook := by
    intro i hi
    simp [connectedHook, initialHook] at hi
  have h := C4_tool_error_isolation connectedHook hpi rfl
      (ToolCallResult.mk [Content.mk "text" "nope"] true) rfl
  refine ⟨hpi, rfl, ?_, h.2.1⟩
  have e : toolErrorMessage (ToolCallResult.mk [Content.mk "text" "nope"] true)
      = "tool error: nope" := rfl
  rw [← e]
  exact h.1

/-- Iterated submission allocates the ids counter+1 … counter+n in order:
the counter advances by n, every allocated id lies strictly between the old
counter and the old counter plus n, the ids are strictly increasing, and
the first allocated id is the old counter plus one. -/
theorem callSubmitN_spec (n : Nat) : ∀ h : TempotownHook,
    (callSubmitN h n).1.requestID = h.requestID + n
  ∧ (∀ i ∈ (callSubmitN h n).2, h.requestID < i ∧ i ≤ h.requestID + n)
  ∧ List.Chain' (fun a b : Int => a < b) (callSubmitN h n).2
  ∧ (callSubmitN h n).2.head? = if n = 0 then none else some (h.requestID + 1) := by
  induction n with
  | zero =>
    intro h
    refine ⟨by simp [callSubmitN], ?_, by simp [callSubmitN], by simp [callSubmitN]⟩
    intro i hi
    simp [callSubmitN] at hi
  | succ n ih =>
    intro h
    have ihh := ih (callSubmit h).1
    have hreq : (callSubmit h).1.requestID = h.requestID + 1 := rfl
    have hid : (callSubmit h).2 = h.requestID + 1 := rfl
    refine ⟨?_, ?_, ?_, ?_⟩
    · show (callSubmitN (callSubmit h).1 n).1.requestID = h.requestID + (n + 1 : Nat)
      rw [ihh.1, hreq]
      push_cast
      ring
    · intro i hi
      rcases List.mem_cons.mp hi with hi | hi
      · rw [hi, hid]
        constructor
        · omega
        · have : (0 : Int) ≤ n := Int.ofNat_nonneg n
          push_cast
          omega
      · have hb := ihh.2.1 i hi
        rw [hreq] at hb
        push_cast at hb ⊢
        omega
    · show List.Chain' (fun a b : Int => a < b)
          ((callSubmit h).2 :: (callSubmitN (callSubmit h).1 n).2)
      refine List.chain'_cons'.mpr ⟨?_, ihh.2.2.1⟩
      intro y hy
      rw [ihh.2.2.2] at hy
      cases n with
      | zero => simp at hy
      | succ m =>
        simp at hy
        rw [← hy, hid, hreq]
        omega
    · show ((callSubmit h).2 :: (callSubmitN (callSubmit h).1 n).2).head?
          = if (n + 1 : Nat) = 0 then none else some (h.requestID + 1)
      simp [hid]

/-- Counterexample to claim C5: running one RPC in a first transport
lifetime, losing the connection, reconnecting (which does not reset the
counter), and running one RPC in the second transport lifetime yields id 2
as the first id of that lifetime, not 1. -/
theorem C5_counterexample :
    (callSubmitN (connectTransport initialHook) 1).2 = [1]
  ∧ (callSubmitN (connectTransport (onReaderExit
        (callSubmitN (connectTransport initialHook) 1).1)) 1).2 = [2]
  ∧ ((2 : Int) = 1 → False) := by
  refine ⟨by decide, by decide, by decide⟩

/-- Claim C5 as amended: request ids are strictly increasing positive
integers across the whole hook lifetime, and the very first id after
construction is 1; within any single transport lifetime the ids are
strictly increasing and positive, but reconnecting preserves the counter,
so a later lifetime continues from the previous counter value instead of
restarting at 1. -/
theorem C5_amended (h : TempotownHook) (n : Nat) (hpos : 0 ≤ h.requestID) :
    (∀ i ∈ (callSubmitN h n).2, 0 < i)
  ∧ List.Chain' (fun a b : Int => a < b) (callSubmitN h n).2
  ∧ (connectTransport h).requestID = h.requestID
  ∧ (onReaderExit h).requestID = h.requestID
  ∧ (callSubmitN initialHook n).2.head? = if n = 0 then none else some 1 := by
  have hs := callSubmitN_spec n h
  have hi := callSubmitN_spec n initialHook
  refine ⟨?_, hs.2.2.1, rfl, rfl, ?_⟩
  · intro i himem
    have := hs.2.1 i himem
    omega
  · have := hi.2.2.2
    simpa [initialHook] using this

/-- Witness for C5 as amended: three submissions from the fresh hook give
positive ids whose first is 1. -/
theorem C5_amended_witness :
    (0 : Int) ≤ initialHook.requestID
  ∧ (∀ i ∈ (callSubmitN initialHook 3).2, 0 < i)
  ∧ (callSubmitN initialHook 3).2.head? = if (3 : Nat) = 0 then none else some 1 := by
  have h := C5_amended initialHook 3 (by decide)
  exact ⟨by decide, h.1, h.2.2.2.2⟩

/-- The enqueue loop delivers exactly the items that fit in the remaining
buffer space, in order, and warns (with each item's source) about exactly
the rest, in order. -/
theorem enqueueFeedback_spec (items : List FeedbackPayload) :
    ∀ ch w, ch.length ≤ feedbackChCapacity →
      enqueueFeedback ch w items
        = (ch ++ items.take (feedbackChCapacity - ch.length),
           w ++ (items.drop (feedbackChCapacity - ch.length)).map
              FeedbackPayload.source) := by
  induction items with
  | nil =>
    intro ch w _
    simp [enqueueFeedback]
  | cons item rest ih =>
    intro ch w hch
    by_cases hlt : ch.length < feedbackChCapacity
    · have hlen : (ch ++ [item]).length ≤ feedbackChCapacity := by
        simp
        omega
      have hrec := ih (ch ++ [item]) w hlen
      have hstep : enqueueFeedback ch w (item :: rest)
          = enqueueFeedback (ch ++ [item]) w rest := by
        simp [enqueueFeedback, hlt]
      have hk : feedbackChCapacity - ch.length
          = (feedbackChCapacity - (ch ++ [item]).length) + 1 := by
        simp
        omega
      rw [hstep, hrec, hk]
      simp
    · have hk : feedbackChCapacity - ch.length = 0 := by omega
      have hrec := ih ch (w ++ [item.source]) hch
      have hstep : enqueueFeedback ch w (item :: rest)
          = enqueueFeedback ch (w ++ [item.source]) rest := by
        simp [enqueueFeedback, hlt]
      rw [hstep, hrec, hk]
      simp [hk]

/-- Claim C6: the outbound feedback channel has fixed capacity 10; a poll's
items are enqueued non-blockingly in orchestrator order, the items that fit
the remaining space are delivered in that order, every item that arrives
while the channel is full is dropped with a warning naming its source, and
the buffered contents never exceed the capacity. -/
theorem C6_feedback_channel (ch : List FeedbackPayload) (w : List String)
    (items : List FeedbackPayload) (hch : ch.length ≤ feedbackChCapacity) :
    (enqueueFeedback ch w items).1
      = ch ++ items.take (feedbackChCapacity - ch.length)
  ∧ (enqueueFeedback ch w items).2
      = w ++ (items.drop (feedbackChCapacity - ch.length)).map FeedbackPayload.source
  ∧ (enqueueFeedback ch w items).1.length ≤ feedbackChCapacity
  ∧ feedbackChCapacity = 10 := by
  have hs := enqueueFeedback_spec items ch w hch
  refine ⟨by rw [hs], by rw [hs], ?_, rfl⟩
  rw [hs]
  simp [List.length_take]
  omega

/-- Witness for C6: polling twelve items into the empty channel delivers
the first ten in order and warns about the sources of the last two. -/
theorem C6_witness :
    ([] : List FeedbackPayload).length ≤ feedbackChCapacity
  ∧ (enqueueFeedback [] [] sampleItems).1 = sampleItems.take 10
  ∧ (enqueueFeedback [] [] sampleItems).2
      = (sampleItems.drop 10).map FeedbackPayload.source := by
  have h := C6_feedback_channel [] [] sampleItems (by decide)
  refine ⟨by decide, ?_, ?_⟩
  · simpa [feedbackChCapacity] using h.1
  · simpa [feedbackChCapacity] using h.2.1

end Tempotown
